import Mathlib

/-!
Verification of the Productization Workflow of the Sage dashboard
(`src/unnamed/part_002`, the `SageOS` component).

The embedding below translates the component's monetization state and its
event handlers (`handleMonetize`, `runMonetizePipeline`, `handleD1ForTopic`,
`handleRewriteSection`, `handleRewriteAll`, the inline sales-page rewrite,
`handleFinalize`, the generate button guard, and the debounced research-check
effect) into pure Lean functions.  Remote calls are modelled by passing each
handler the outcome of every request it may issue (`CallOutcome`): either a
transport-level rejection (the axios promise rejects) or a resolved response
with an optional JSON body.  Each handler returns the component state after
the handler finished (`now`), the state after any `setTimeout` revert it
scheduled (`later`), and the list of API calls it issued, in issue order.
-/

namespace SageOS

/-- JavaScript `String.prototype.trim` on the char list: drop whitespace from
both ends.  Structurally recursive so that concrete guards evaluate. -/
def jsTrim (s : String) : String :=
  ⟨((s.data.dropWhile Char.isWhitespace).reverse.dropWhile Char.isWhitespace).reverse⟩

/-- JavaScript truthiness of a possibly-absent string field: `undefined`,
`null` and `""` are falsy, every other string is truthy. -/
def optTruthy (o : Option String) : Bool :=
  match o with
  | some s => !(s == "")
  | none => false

/-- JavaScript `x || null` for a possibly-absent string `x`. -/
def jsOrNull (o : Option String) : Option String :=
  if optTruthy o then o else none

/-- One course section, `{title, content}` (the objects stored in
`editedSections`, part_002 line 153). -/
structure CourseSection where
  title : String
  content : String
deriving DecidableEq, Repr

/-- The `monetizeStatus` strings (part_002 line 21). -/
inductive MonetizeStatus
  | idle
  | checking_research
  | needs_research
  | running_d1
  | running
  | review
  | finalizing
  | finalized
  | error
deriving DecidableEq, Repr

/-- The `researchCheck.status` strings (part_002 line 24). -/
inductive ResearchStatus
  | idle
  | checking
  | found
  | missing
deriving DecidableEq, Repr

/-- The `researchCheck` object `{status, file}` (part_002 line 23). -/
structure ResearchCheck where
  status : ResearchStatus
  file : Option String
deriving DecidableEq, Repr

/-- A key of the `sectionInstructions` object: a section index or the
string key `'sales'`. -/
inductive UnitKey
  | sec (idx : Nat)
  | sales
deriving DecidableEq, Repr

/-- Response body of `/api/productize` (checked as
`!planRes.data || planRes.data.error`, then `planRes.data.plan` is passed on). -/
structure PlanResponse where
  error : Option String
  plan : Option String
deriving DecidableEq, Repr

/-- Response body of `/api/productize/execute` (part_002 lines 148-155). -/
structure ExecResponse where
  error : Option String
  sections : Option (List CourseSection)
  sales_page : Option String
  qa_status : Option String
  research_source : Option String
  obsidian_note : Option String
deriving DecidableEq, Repr

/-- Response body of `/api/research/check` (part_002 lines 86-90). -/
structure CheckResponse where
  has_research : Bool
  file : Option String
deriving DecidableEq, Repr

/-- Response body of `/api/productize/rewrite`: `{status, rewritten}`;
a successful response carries the rewritten text. -/
structure RewriteResponse where
  status : Option String
  rewritten : String
deriving DecidableEq, Repr

/-- Response body of `/api/productize/finalize` (part_002 lines 226-230). -/
structure FinalizeResponse where
  status : Option String
  saved_path : Option String
  error : Option String
deriving DecidableEq, Repr

/-- Outcome of one remote call: the promise rejects with an error message
(transport failure, non-2xx), or resolves with an optional JSON body. -/
inductive CallOutcome (α : Type)
  | transportError (msg : String)
  | resolved (data : Option α)
deriving DecidableEq, Repr

/-- True when the outcome is a rejected promise. -/
def CallOutcome.isTransportError {α : Type} : CallOutcome α → Bool
  | .transportError _ => true
  | .resolved _ => false

/-- The remote requests the handlers can issue, with the payload fields the
handlers compute (part_002 lines 86, 114, 139, 142, 172, 196, 203, 220). -/
inductive ApiCall
  | researchCheckCall (topic : String)
  | d1GenerateCall (topic : String)
  | planCall (topic market price : String)
  | executeCall (topic : String) (plan : Option String) (language : String)
  | rewriteCall (content instruction language : String)
  | finalizeCall (topic : String) (sections : List CourseSection)
      (sales_page : String) (obsidian_note : String)
deriving DecidableEq, Repr

/-- The monetization slice of the component state (part_002 lines 16-35). -/
structure SageState where
  monetizeTopic : String
  market : String
  price : String
  lang : String
  monetizeStatus : MonetizeStatus
  monetizeResult : Option String
  researchCheck : ResearchCheck
  generateData : Option ExecResponse
  editedSections : List CourseSection
  editedSalesPage : String
  globalInstruction : String
  sectionInstructions : UnitKey → String
  rewritingIdx : Option UnitKey
  globalRewriting : Bool
  expandedSection : Option UnitKey

/-- The initial `useState` values (part_002 lines 16-35). -/
def initialState : SageState :=
  { monetizeTopic := ""
    market := "US"
    price := "$29"
    lang := "auto"
    monetizeStatus := MonetizeStatus.idle
    monetizeResult := none
    researchCheck := { status := ResearchStatus.idle, file := none }
    generateData := none
    editedSections := []
    editedSalesPage := ""
    globalInstruction := ""
    sectionInstructions := fun _ => ""
    rewritingIdx := none
    globalRewriting := false
    expandedSection := none }

/-- Result of running one handler to completion: the state when the handler
returns, the state after the revert it scheduled with `setTimeout` (if any)
fires, and the API calls it issued, in order. -/
structure HandlerRun where
  now : SageState
  later : Option SageState
  calls : List ApiCall

/-- A handler invocation that returns before doing anything. -/
def noopRun (s : SageState) : HandlerRun :=
  { now := s, later := none, calls := [] }

/-- JavaScript `Array.prototype.map` where the callback receives the element
index (`(s, i) => ...`), starting the index at `n`. -/
def mapWithIdx {α β : Type} (f : Nat → α → β) : Nat → List α → List β
  | _, [] => []
  | n, x :: xs => f n x :: mapWithIdx f (n + 1) xs

/-- The language-resolution ternary used by every rewrite call
(part_002 lines 175, 193, 662, 675): `'auto'` resolves to `'ja'` when the
topic contains a char in the U+3000-U+9FFF range, else `'en'`. -/
def resolveLang (lang topic : String) : String :=
  if lang = "auto" then
    (if topic.data.any (fun c => decide (0x3000 ≤ c.toNat) && decide (c.toNat ≤ 0x9fff))
     then "ja" else "en")
  else lang

/-- The `rewrites[i]?.data?.status === 'success'` test (part_002 lines 177, 200). -/
def rewriteOk : CallOutcome RewriteResponse → Bool
  | .resolved (some r) => r.status == some "success"
  | _ => false

/-- The rewritten text of a successful rewrite response (`res.data.rewritten`). -/
def rewrittenOf : CallOutcome RewriteResponse → String
  | .resolved (some r) => r.rewritten
  | _ => ""

/-- First line of `runMonetizePipeline` (part_002 lines 136-137): the state
while the plan and execute calls are in flight. -/
def pipelineStart (s : SageState) : SageState :=
  { s with monetizeStatus := MonetizeStatus.running, monetizeResult := none }

/-- Negation of the plan throw condition `!planRes.data || planRes.data.error`
(part_002 line 140); a transport rejection also throws. -/
def planOk : CallOutcome PlanResponse → Bool
  | .resolved (some r) => !(optTruthy r.error)
  | _ => false

/-- Negation of the execute throw condition `!execRes.data || execRes.data.error`
(part_002 line 148); a transport rejection also throws. -/
def execOk : CallOutcome ExecResponse → Bool
  | .resolved (some r) => !(optTruthy r.error)
  | _ => false

/-- The `plan` field forwarded from the plan response to the execute request
(part_002 line 145). -/
def planPayload : CallOutcome PlanResponse → Option String
  | .resolved (some r) => r.plan
  | _ => none

/-- `(courseData.sections || [])` of a successful execute response
(part_002 line 153). -/
def execSections : CallOutcome ExecResponse → List CourseSection
  | .resolved (some d) => d.sections.getD []
  | _ => []

/-- `(courseData.sales_page || '')` of a successful execute response
(part_002 line 154). -/
def execSalesPage : CallOutcome ExecResponse → String
  | .resolved (some d) => d.sales_page.getD ""
  | _ => ""

/-- The payload of a successful execute response. -/
def execPayload : CallOutcome ExecResponse → Option ExecResponse
  | .resolved (some d) => some d
  | _ => none

/-- The `catch` branch of `runMonetizePipeline` (part_002 lines 158-163):
show the message (with the generic fallback when it is empty), set status
`error`, and schedule the 8 s revert to `idle` with the message cleared. -/
def pipelineFailRun (msg : String) (s0 : SageState) (cs : List ApiCall) : HandlerRun :=
  let m := if msg == "" then "エラーが発生しました" else msg
  let now := { s0 with monetizeResult := some m, monetizeStatus := MonetizeStatus.error }
  { now := now
    later := some { now with monetizeStatus := MonetizeStatus.idle, monetizeResult := none }
    calls := cs }

/-- Embeds `runMonetizePipeline` (part_002 lines 135-164).  `p` is the outcome
of the `/api/productize` call, `e` of the `/api/productize/execute` call.  The
execute call is only reached (and only appears in `calls`) when the plan call
did not throw; on success the state enters `review` with the document taken
from the execute payload. -/
def runMonetizePipeline (p : CallOutcome PlanResponse) (e : CallOutcome ExecResponse)
    (s : SageState) : HandlerRun :=
  let s0 := pipelineStart s
  let pc := ApiCall.planCall s.monetizeTopic s.market s.price
  match p with
  | .transportError m => pipelineFailRun m s0 [pc]
  | .resolved none => pipelineFailRun "Plan generation failed" s0 [pc]
  | .resolved (some pr) =>
    if optTruthy pr.error then pipelineFailRun (pr.error.getD "") s0 [pc]
    else
      let ec := ApiCall.executeCall s.monetizeTopic pr.plan s.lang
      match e with
      | .transportError m => pipelineFailRun m s0 [pc, ec]
      | .resolved none => pipelineFailRun "Course generation failed" s0 [pc, ec]
      | .resolved (some d) =>
        if optTruthy d.error then pipelineFailRun (d.error.getD "") s0 [pc, ec]
        else
          { now := { s0 with
              generateData := some d
              editedSections := d.sections.getD []
              editedSalesPage := d.sales_page.getD ""
              sectionInstructions := fun _ => ""
              expandedSection := some (UnitKey.sec 0)
              monetizeStatus := MonetizeStatus.review }
            later := none
            calls := [pc, ec] }

/-- Embeds `handleMonetize` (part_002 lines 240-247): return when the topic is
empty, enter `needs_research` when the gate status is `missing`, otherwise run
the pipeline. -/
def handleMonetize (p : CallOutcome PlanResponse) (e : CallOutcome ExecResponse)
    (s : SageState) : HandlerRun :=
  if s.monetizeTopic = "" then noopRun s
  else if s.researchCheck.status = ResearchStatus.missing then
    { now := { s with monetizeStatus := MonetizeStatus.needs_research }, later := none, calls := [] }
  else runMonetizePipeline p e s

/-- Applying a research-check response body to `researchCheck`
(part_002 lines 87-90 and 117-120): `has_research` truthiness selects
`found`/`missing`, and `file` is `res.data?.file || null`. -/
def checkOf (body : Option CheckResponse) : ResearchCheck :=
  { status := if (match body with | some b => b.has_research | none => false)
              then ResearchStatus.found else ResearchStatus.missing
    file := jsOrNull (body.bind CheckResponse.file) }

/-- The `catch` branch of `handleD1ForTopic` (part_002 lines 123-127). -/
def d1FailRun (msg : String) (s0 : SageState) (cs : List ApiCall) : HandlerRun :=
  let now := { s0 with
    monetizeStatus := MonetizeStatus.error
    monetizeResult := some ("D1リサーチに失敗しました: " ++ msg) }
  { now := now
    later := some { now with monetizeStatus := MonetizeStatus.idle, monetizeResult := none }
    calls := cs }

/-- Embeds `handleD1ForTopic` (part_002 lines 111-128).  `d1` is the outcome of
the `/api/d1/generate` call (its body is never inspected), `rc` of the
research re-check, and `p`, `e` feed the pipeline it chains into.  A transport
rejection of either of the first two calls lands in the `catch`;
`runMonetizePipeline` catches its own failures, so it never throws here. -/
def handleD1ForTopic (d1 : CallOutcome Unit) (rc : CallOutcome CheckResponse)
    (p : CallOutcome PlanResponse) (e : CallOutcome ExecResponse)
    (s : SageState) : HandlerRun :=
  let s0 := { s with monetizeStatus := MonetizeStatus.running_d1 }
  let dc := ApiCall.d1GenerateCall s.monetizeTopic
  match d1 with
  | .transportError m => d1FailRun m s0 [dc]
  | .resolved _ =>
    let cc := ApiCall.researchCheckCall s.monetizeTopic
    match rc with
    | .transportError m => d1FailRun m s0 [dc, cc]
    | .resolved body =>
      let s1 := { s0 with researchCheck := checkOf body }
      let r := runMonetizePipeline p e s1
      { r with calls := dc :: cc :: r.calls }

/-- `editedSections[idx].content` as read by `handleRewriteSection`; the UI
only invokes the handler for a rendered section, so `idx` is in range. -/
def contentAt (l : List CourseSection) (idx : Nat) : String :=
  ((l.get? idx).map CourseSection.content).getD ""

/-- Embeds `handleRewriteSection` (part_002 lines 167-186): return when the
pending instruction is blank; otherwise issue one rewrite call and, only when
the response resolves with `status: 'success'`, replace that section's content
and clear its instruction.  A transport rejection (caught and logged) and an
unsuccessful response both leave every section untouched. -/
def handleRewriteSection (idx : Nat) (o : CallOutcome RewriteResponse)
    (s : SageState) : HandlerRun :=
  let instruction := s.sectionInstructions (UnitKey.sec idx)
  if jsTrim instruction = "" then noopRun s
  else
    let call := ApiCall.rewriteCall (contentAt s.editedSections idx) instruction
      (resolveLang s.lang s.monetizeTopic)
    if rewriteOk o then
      { now := { s with
          editedSections := (mapWithIdx
            (fun i (x : CourseSection) =>
              if i = idx then { x with content := rewrittenOf o } else x)
            0 s.editedSections)
          sectionInstructions := fun k => if k = UnitKey.sec idx then "" else s.sectionInstructions k
          rewritingIdx := none }
        later := none
        calls := [call] }
    else { now := { s with rewritingIdx := none }, later := none, calls := [call] }

/-- Embeds the inline sales-page scoped rewrite (part_002 lines 672-679).  The
inline handler has no `try`/`catch`, so a transport rejection leaves
`rewritingIdx` stuck at `'sales'`; a resolved non-success response leaves the
page and its instruction untouched. -/
def handleRewriteSales (o : CallOutcome RewriteResponse) (s : SageState) : HandlerRun :=
  if jsTrim (s.sectionInstructions UnitKey.sales) = "" then noopRun s
  else
    let call := ApiCall.rewriteCall s.editedSalesPage (s.sectionInstructions UnitKey.sales)
      (resolveLang s.lang s.monetizeTopic)
    match o with
    | .transportError _ =>
      { now := { s with rewritingIdx := some UnitKey.sales }, later := none, calls := [call] }
    | .resolved _ =>
      if rewriteOk o then
        { now := { s with
            editedSalesPage := rewrittenOf o
            sectionInstructions := fun k => if k = UnitKey.sales then "" else s.sectionInstructions k
            rewritingIdx := none }
          later := none
          calls := [call] }
      else { now := { s with rewritingIdx := none }, later := none, calls := [call] }

/-- True when some section's rewrite call in a global rewrite was a transport
rejection, in which case the `Promise.all` of part_002 line 194 rejects. -/
def anySectionTransportError (so : Nat → CallOutcome RewriteResponse) (n : Nat) : Bool :=
  (List.range n).any fun i => (so i).isTransportError

/-- Embeds `handleRewriteAll` (part_002 lines 189-214).  `so i` is the outcome
of section `i`'s rewrite call and `sp` the outcome of the sales-page call.
All section calls are created (hence issued) by the `map` before `Promise.all`
is awaited; if any of them rejects, the `catch` runs: no section is updated,
the sales-page call is never issued, and the global instruction is kept.
Otherwise sections whose responses signal success get the rewritten content,
then the sales page (when nonempty) gets its own call afterwards. -/
def handleRewriteAll (so : Nat → CallOutcome RewriteResponse)
    (sp : CallOutcome RewriteResponse) (s : SageState) : HandlerRun :=
  if jsTrim s.globalInstruction = "" then noopRun s
  else
    let resolvedLang := resolveLang s.lang s.monetizeTopic
    let secCalls := mapWithIdx
      (fun _ (x : CourseSection) => ApiCall.rewriteCall x.content s.globalInstruction resolvedLang)
      0 s.editedSections
    if anySectionTransportError so s.editedSections.length then
      { now := { s with globalRewriting := false }, later := none, calls := secCalls }
    else
      let s1 := { s with editedSections := (mapWithIdx
        (fun i (x : CourseSection) =>
          if rewriteOk (so i) then { x with content := rewrittenOf (so i) } else x)
        0 s.editedSections) }
      if s.editedSalesPage = "" then
        { now := { s1 with globalInstruction := "", globalRewriting := false }
          later := none
          calls := secCalls }
      else
        let spCall := ApiCall.rewriteCall s.editedSalesPage s.globalInstruction resolvedLang
        match sp with
        | .transportError _ =>
          { now := { s1 with globalRewriting := false }, later := none, calls := secCalls ++ [spCall] }
        | .resolved _ =>
          let s2 := if rewriteOk sp then { s1 with editedSalesPage := rewrittenOf sp } else s1
          { now := { s2 with globalInstruction := "", globalRewriting := false }
            later := none
            calls := secCalls ++ [spCall] }

/-- The `res.data?.status === 'success'` test of `handleFinalize`
(part_002 line 226). -/
def finalizeOk : CallOutcome FinalizeResponse → Bool
  | .resolved (some r) => r.status == some "success"
  | _ => false

/-- `res.data.saved_path` of a successful finalize response. -/
def savedPathOf : CallOutcome FinalizeResponse → Option String
  | .resolved (some r) => r.saved_path
  | _ => none

/-- The message of a failed finalize: the transport message, or
`res.data?.error || 'Finalize failed'`. -/
def finalizeErrMsg : CallOutcome FinalizeResponse → String
  | .transportError m => m
  | .resolved none => "Finalize failed"
  | .resolved (some r) => if optTruthy r.error then r.error.getD "" else "Finalize failed"

/-- Embeds `handleFinalize` (part_002 lines 217-237): enter `finalizing`, issue
the persistence call; on success show the saved path and enter `finalized`; on
any failure show the message, enter `error`, and schedule the 6 s revert to
`review` with the message cleared.  The edited document is never written. -/
def handleFinalize (o : CallOutcome FinalizeResponse) (s : SageState) : HandlerRun :=
  let s0 := { s with monetizeStatus := MonetizeStatus.finalizing }
  let call := ApiCall.finalizeCall s.monetizeTopic s.editedSections s.editedSalesPage
    ((s.generateData.bind ExecResponse.obsidian_note).getD "")
  if finalizeOk o then
    { now := { s0 with monetizeResult := savedPathOf o, monetizeStatus := MonetizeStatus.finalized }
      later := none
      calls := [call] }
  else
    let now := { s0 with
      monetizeResult := some (finalizeErrMsg o)
      monetizeStatus := MonetizeStatus.error }
    { now := now
      later := some { now with monetizeStatus := MonetizeStatus.review, monetizeResult := none }
      calls := [call] }

/-- The generate button is rendered only outside these statuses
(part_002 line 491). -/
def generateButtonRendered (s : SageState) : Bool :=
  !(s.monetizeStatus == MonetizeStatus.needs_research
    || s.monetizeStatus == MonetizeStatus.review
    || s.monetizeStatus == MonetizeStatus.finalizing
    || s.monetizeStatus == MonetizeStatus.finalized)

/-- The generate button's `disabled` guard (part_002 line 494):
`!monetizeTopic || ['running','running_d1'].includes(monetizeStatus)`. -/
def generateButtonDisabled (s : SageState) : Bool :=
  s.monetizeTopic == ""
    || s.monetizeStatus == MonetizeStatus.running
    || s.monetizeStatus == MonetizeStatus.running_d1

/-- An operator click on the generate button: the click reaches
`handleMonetize` only when the button is rendered and enabled. -/
def clickGenerate (p : CallOutcome PlanResponse) (e : CallOutcome ExecResponse)
    (s : SageState) : HandlerRun :=
  if generateButtonRendered s && !(generateButtonDisabled s) then handleMonetize p e s
  else noopRun s

/-- How many of the three in-flight statuses the state is in at once. -/
def busyCount (s : SageState) : Nat :=
  (if s.monetizeStatus = MonetizeStatus.running then 1 else 0) +
  (if s.monetizeStatus = MonetizeStatus.running_d1 then 1 else 0) +
  (if s.monetizeStatus = MonetizeStatus.finalizing then 1 else 0)

/-- The debounce window of the research-check effect (part_002 line 94). -/
def debounceMs : Nat := 600

/-- The research-gate slice of the component state, for the debounced effect
of part_002 lines 77-96: the current topic, the gate status, the topic
captured by the currently scheduled (not yet fired) debounce timeout, and the
topics of issued lookups whose responses are still in flight. -/
structure GateState where
  monetizeTopic : String
  researchCheck : ResearchCheck
  pendingTimer : Option String
  inflight : List String
deriving DecidableEq, Repr

/-- The body of the debounce timeout (part_002 lines 85-93) applying a lookup
response to the gate state: a transport failure resets to `idle`; a resolved
response sets `found`/`missing`.  The code compares nothing: the response is
applied whether or not its topic is still the current topic. -/
def applyCheckResponse (o : CallOutcome CheckResponse) (g : GateState) : GateState :=
  match o with
  | .transportError _ => { g with researchCheck := { status := ResearchStatus.idle, file := none } }
  | .resolved body => { g with researchCheck := checkOf body }

/-- Events of the debounced research-check effect: a topic edit (one run of
the effect, whose cleanup has already cleared the previous timer), the 600 ms
timeout elapsing, and the resolution of an issued lookup for topic `t`. -/
inductive GateEvent
  | editTopic (t : String)
  | timerFire
  | response (t : String) (o : CallOutcome CheckResponse)

/-- Small-step semantics of the effect (part_002 lines 77-96).  An edit to a
blank topic resets the gate to `idle` and schedules nothing; any other edit
sets `checking` and (re)schedules the timer for the new topic, dropping any
previously pending one.  A timer fire issues exactly one lookup for the
pending topic.  A response for an issued lookup is applied unconditionally. -/
def gateStep (g : GateState) (ev : GateEvent) : GateState × List ApiCall :=
  match ev with
  | .editTopic t =>
    if jsTrim t = "" then
      ({ g with monetizeTopic := t
                researchCheck := { status := ResearchStatus.idle, file := none }
                pendingTimer := none }, [])
    else
      ({ g with monetizeTopic := t
                researchCheck := { status := ResearchStatus.checking, file := none }
                pendingTimer := some t }, [])
  | .timerFire =>
    match g.pendingTimer with
    | none => (g, [])
    | some t =>
      ({ g with pendingTimer := none, inflight := g.inflight ++ [t] },
       [ApiCall.researchCheckCall t])
  | .response t o =>
    if t ∈ g.inflight then
      ({ applyCheckResponse o g with inflight := g.inflight.erase t }, [])
    else (g, [])

/-- Run a list of gate events, accumulating the issued calls in order. -/
def gateRun (g : GateState) : List GateEvent → GateState × List ApiCall
  | [] => (g, [])
  | ev :: evs =>
    let r := gateStep g ev
    let r2 := gateRun r.1 evs
    (r2.1, r.2 ++ r2.2)

/-- The gate state before any edit (part_002 lines 16, 23, 25). -/
def initialGate : GateState :=
  { monetizeTopic := ""
    researchCheck := { status := ResearchStatus.idle, file := none }
    pendingTimer := none
    inflight := [] }

/-- A review-stage document with two sections, a blank sales page and a
nonblank global instruction. -/
def twoSectionDoc : SageState :=
  { initialState with
    monetizeStatus := MonetizeStatus.review
    monetizeTopic := "Morning Routine"
    editedSections := [{ title := "s0", content := "a" }, { title := "s1", content := "b" }]
    globalInstruction := "make it casual" }

/-- Global-rewrite outcomes where section 0's call resolves successfully and
section 1's call is rejected at the transport level. -/
def mixedOutcomes : Nat → CallOutcome RewriteResponse := fun i =>
  if i = 0 then CallOutcome.resolved (some { status := some "success", rewritten := "A" })
  else CallOutcome.transportError "network error"

/-- The event trace of a lookup issued for topic `T1` whose response arrives
only after the topic has been edited to `T2`. -/
def staleTrace : List GateEvent :=
  [GateEvent.editTopic "T1", GateEvent.timerFire, GateEvent.editTopic "T2",
   GateEvent.response "T1" (CallOutcome.resolved (some { has_research := true, file := some "t1.md" }))]

/-- A gate state with topic `T2` current while a lookup for `T1` is in flight. -/
def supersededGate : GateState :=
  { monetizeTopic := "T2"
    researchCheck := { status := ResearchStatus.checking, file := none }
    pendingTimer := some "T2"
    inflight := ["T1"] }

/-- An idle state whose gate check is still `checking` (unknown). -/
def checkingState : SageState :=
  { initialState with
    monetizeTopic := "Morning Routine"
    researchCheck := { status := ResearchStatus.checking, file := none } }

/-- An idle state whose gate check found no research. -/
def missingState : SageState :=
  { initialState with
    monetizeTopic := "Morning Routine"
    researchCheck := { status := ResearchStatus.missing, file := none } }

/-- The `needs_research` state from which the operator runs research first. -/
def needsResearchState : SageState :=
  { missingState with monetizeStatus := MonetizeStatus.needs_research }

/-- A three-section review document whose section 1 has a pending instruction. -/
def threeSectionDoc : SageState :=
  { initialState with
    monetizeStatus := MonetizeStatus.review
    monetizeTopic := "Morning Routine"
    editedSections := [{ title := "s0", content := "a" }, { title := "s1", content := "b" },
                       { title := "s2", content := "c" }]
    editedSalesPage := "buy now"
    sectionInstructions := fun k => if k = UnitKey.sec 1 then "add numbers" else "" }

end SageOS

namespace SageOS

theorem mapWithIdx_length {α β : Type} (f : Nat → α → β) (n : Nat) (l : List α) :
    (mapWithIdx f n l).length = l.length := by
  induction l generalizing n with
  | nil => rfl
  | cons x xs ih => simp [mapWithIdx, ih]

theorem mapWithIdx_get {α β : Type} (f : Nat → α → β) (n i : Nat) (l : List α) :
    (mapWithIdx f n l)[i]? = l[i]?.map (f (n + i)) := by
  induction l generalizing n i with
  | nil => simp [mapWithIdx]
  | cons x xs ih =>
    cases i with
    | zero => simp [mapWithIdx]
    | succ j =>
      have h : n + 1 + j = n + (j + 1) := by omega
      simpa [mapWithIdx, h] using ih (n + 1) j

theorem pipeline_now_status (p : CallOutcome PlanResponse) (e : CallOutcome ExecResponse)
    (s : SageState) :
    (runMonetizePipeline p e s).now.monetizeStatus =
      (if planOk p && execOk e then MonetizeStatus.review else MonetizeStatus.error) := by
  rcases p with m | _ | pr
  · simp [runMonetizePipeline, pipelineFailRun, planOk]
  · simp [runMonetizePipeline, pipelineFailRun, planOk]
  · by_cases h : optTruthy pr.error
    · simp [runMonetizePipeline, pipelineFailRun, planOk, h]
    · rcases e with m2 | _ | d
      · simp [runMonetizePipeline, pipelineFailRun, planOk, execOk, h]
      · simp [runMonetizePipeline, pipelineFailRun, planOk, execOk, h]
      · by_cases h2 : optTruthy d.error <;>
          simp [runMonetizePipeline, pipelineFailRun, planOk, execOk, h, h2]

theorem pipeline_calls (p : CallOutcome PlanResponse) (e : CallOutcome ExecResponse)
    (s : SageState) :
    (runMonetizePipeline p e s).calls =
      ApiCall.planCall s.monetizeTopic s.market s.price ::
        (if planOk p then [ApiCall.executeCall s.monetizeTopic (planPayload p) s.lang] else []) := by
  rcases p with m | _ | pr
  · simp [runMonetizePipeline, pipelineFailRun, planOk]
  · simp [runMonetizePipeline, pipelineFailRun, planOk]
  · by_cases h : optTruthy pr.error
    · simp [runMonetizePipeline, pipelineFailRun, planOk, planPayload, h]
    · rcases e with m2 | _ | d
      · simp [runMonetizePipeline, pipelineFailRun, planOk, planPayload, h]
      · simp [runMonetizePipeline, pipelineFailRun, planOk, planPayload, h]
      · by_cases h2 : optTruthy d.error <;>
          simp [runMonetizePipeline, pipelineFailRun, planOk, planPayload, h, h2]

theorem pipeline_now_sections (p : CallOutcome PlanResponse) (e : CallOutcome ExecResponse)
    (s : SageState) :
    (runMonetizePipeline p e s).now.editedSections =
      (if planOk p && execOk e then execSections e else s.editedSections) := by
  rcases p with m | _ | pr
  · simp [runMonetizePipeline, pipelineFailRun, pipelineStart, planOk]
  · simp [runMonetizePipeline, pipelineFailRun, pipelineStart, planOk]
  · by_cases h : optTruthy pr.error
    · simp [runMonetizePipeline, pipelineFailRun, pipelineStart, planOk, h]
    · rcases e with m2 | _ | d
      · simp [runMonetizePipeline, pipelineFailRun, pipelineStart, planOk, execOk, execSections, h]
      · simp [runMonetizePipeline, pipelineFailRun, pipelineStart, planOk, execOk, execSections, h]
      · by_cases h2 : optTruthy d.error <;>
          simp [runMonetizePipeline, pipelineFailRun, pipelineStart, planOk, execOk, execSections, h, h2]

theorem pipeline_now_salesPage (p : CallOutcome PlanResponse) (e : CallOutcome ExecResponse)
    (s : SageState) :
    (runMonetizePipeline p e s).now.editedSalesPage =
      (if planOk p && execOk e then execSalesPage e else s.editedSalesPage) := by
  rcases p with m | _ | pr
  · simp [runMonetizePipeline, pipelineFailRun, pipelineStart, planOk]
  · simp [runMonetizePipeline, pipelineFailRun, pipelineStart, planOk]
  · by_cases h : optTruthy pr.error
    · simp [runMonetizePipeline, pipelineFailRun, pipelineStart, planOk, h]
    · rcases e with m2 | _ | d
      · simp [runMonetizePipeline, pipelineFailRun, pipelineStart, planOk, execOk, execSalesPage, h]
      · simp [runMonetizePipeline, pipelineFailRun, pipelineStart, planOk, execOk, execSalesPage, h]
      · by_cases h2 : optTruthy d.error <;>
          simp [runMonetizePipeline, pipelineFailRun, pipelineStart, planOk, execOk, execSalesPage, h, h2]

/-- C4: the plan call always comes first and the execute call is issued only
after (and if) the plan call succeeded; the run ends in `review`, with the
document's sections and sales page taken from the execute payload, exactly
when both calls succeed, and in `error` otherwise.  `planOk`/`execOk` are
false both for a transport rejection and for a response carrying a truthy
application-level `error` field, so the two failure modes land identically. -/
theorem pipeline_sequential_review_iff_success (p : CallOutcome PlanResponse)
    (e : CallOutcome ExecResponse) (s : SageState) :
    (runMonetizePipeline p e s).now.monetizeStatus =
      (if planOk p && execOk e then MonetizeStatus.review else MonetizeStatus.error) ∧
    (runMonetizePipeline p e s).calls =
      ApiCall.planCall s.monetizeTopic s.market s.price ::
        (if planOk p then [ApiCall.executeCall s.monetizeTopic (planPayload p) s.lang] else []) ∧
    (runMonetizePipeline p e s).now.editedSections =
      (if planOk p && execOk e then execSections e else s.editedSections) ∧
    (runMonetizePipeline p e s).now.editedSalesPage =
      (if planOk p && execOk e then execSalesPage e else s.editedSalesPage) :=
  ⟨pipeline_now_status p e s, pipeline_calls p e s, pipeline_now_sections p e s,
   pipeline_now_salesPage p e s⟩

/-- C2 counterexample: run the effect from the initial gate state through the
trace "edit to T1, debounce elapses (lookup for T1 issued), edit to T2, T1's
response arrives".  The claim requires the superseded response to be
discarded, leaving the status for T2 at `checking`; instead the response
callback stores it unconditionally and the status becomes `found` while the
current topic is T2 — the code never compares the scheduling-time topic with
the current topic. -/
theorem stale_lookup_response_updates_gate :
    (gateRun initialGate staleTrace).1.monetizeTopic = "T2" ∧
    (gateRun initialGate staleTrace).1.researchCheck.status = ResearchStatus.found ∧
    ResearchStatus.found ≠ ResearchStatus.checking := by decide

/-- C2 amended: an edit does cancel the pending (not yet fired) debounce
timer — the timer slot is overwritten with the new topic (or cleared for a
blank topic) and no lookup is issued by the edit itself — but once a lookup
has been issued, its resolved response updates the gate status
unconditionally: no topic comparison guards it. -/
theorem gate_cancels_pending_but_applies_inflight (g : GateState) (t u : String)
    (b : CheckResponse) (hin : u ∈ g.inflight) :
    (gateStep g (GateEvent.editTopic t)).1.pendingTimer =
      (if jsTrim t = "" then none else some t) ∧
    (gateStep g (GateEvent.editTopic t)).2 = [] ∧
    (gateStep g (GateEvent.response u (CallOutcome.resolved (some b)))).1.researchCheck.status =
      (if b.has_research then ResearchStatus.found else ResearchStatus.missing) := by
  refine ⟨?_, ?_, ?_⟩
  · by_cases h : jsTrim t = "" <;> simp [gateStep, h]
  · by_cases h : jsTrim t = "" <;> simp [gateStep, h]
  · cases hb : b.has_research <;> simp [gateStep, hin, applyCheckResponse, checkOf, hb]

theorem gate_cancels_pending_but_applies_inflight_witness :
    ("T1" ∈ supersededGate.inflight) ∧
    ((gateStep supersededGate (GateEvent.editTopic "T3")).1.pendingTimer =
      (if jsTrim "T3" = "" then none else some "T3") ∧
    (gateStep supersededGate (GateEvent.editTopic "T3")).2 = [] ∧
    (gateStep supersededGate (GateEvent.response "T1"
        (CallOutcome.resolved (some { has_research := true, file := none })))).1.researchCheck.status =
      (if ({ has_research := true, file := none } : CheckResponse).has_research
       then ResearchStatus.found else ResearchStatus.missing)) :=
  ⟨by decide, gate_cancels_pending_but_applies_inflight supersededGate "T3" "T1"
    { has_research := true, file := none } (by decide)⟩

/-- C9: running any back-to-back sequence of topic edits (no debounce window
elapses in between) issues no lookup at all; afterwards the gate status is
`idle` if the last edit was blank and `checking` otherwise, the timer slot
holds only the last topic, and the quiet window elapsing issues exactly one
lookup, for the last topic (none if it was blank).  The debounce window is
the fixed 600 ms of the source. -/
theorem debounce_last_edit_single_lookup (g : GateState) (ts : List String) (last : String)
    (h : ts.getLast? = some last) :
    (gateRun g (ts.map GateEvent.editTopic)).2 = [] ∧
    (gateRun g (ts.map GateEvent.editTopic)).1.pendingTimer =
      (if jsTrim last = "" then none else some last) ∧
    (gateRun g (ts.map GateEvent.editTopic)).1.researchCheck =
      (if jsTrim last = "" then { status := ResearchStatus.idle, file := none }
       else { status := ResearchStatus.checking, file := none }) ∧
    (gateStep (gateRun g (ts.map GateEvent.editTopic)).1 GateEvent.timerFire).2 =
      (if jsTrim last = "" then [] else [ApiCall.researchCheckCall last]) ∧
    debounceMs = 600 := by
  induction ts generalizing g with
  | nil => simp at h
  | cons t rest ih =>
    cases rest with
    | nil =>
      obtain rfl : t = last := by simpa using h
      by_cases hb : jsTrim t = "" <;>
        simp [gateRun, gateStep, hb, debounceMs]
    | cons u rest2 =>
      have h2 : (u :: rest2).getLast? = some last := by
        rw [List.getLast?_cons_cons] at h
        exact h
      have step := ih h2 (g := (gateStep g (GateEvent.editTopic t)).1)
      by_cases hb : jsTrim t = "" <;>
        simpa [gateRun, gateStep, hb] using step

theorem debounce_last_edit_single_lookup_witness :
    (["Morning", "Morning R"].getLast? = some "Morning R") ∧
    ((gateRun initialGate (["Morning", "Morning R"].map GateEvent.editTopic)).2 = [] ∧
    (gateRun initialGate (["Morning", "Morning R"].map GateEvent.editTopic)).1.pendingTimer =
      (if jsTrim "Morning R" = "" then none else some "Morning R") ∧
    (gateRun initialGate (["Morning", "Morning R"].map GateEvent.editTopic)).1.researchCheck =
      (if jsTrim "Morning R" = "" then { status := ResearchStatus.idle, file := none }
       else { status := ResearchStatus.checking, file := none }) ∧
    (gateStep (gateRun initialGate (["Morning", "Morning R"].map GateEvent.editTopic)).1
        GateEvent.timerFire).2 =
      (if jsTrim "Morning R" = "" then [] else [ApiCall.researchCheckCall "Morning R"]) ∧
    debounceMs = 600) :=
  ⟨by decide, debounce_last_edit_single_lookup initialGate ["Morning", "Morning R"]
    "Morning R" (by decide)⟩

/-- C1 counterexample: in a two-section review document, section 0's rewrite
call resolves successfully (with rewritten text "A") while section 1's call
is rejected at the transport level.  The claim requires the final document to
hold the rewritten content at index 0 and the original at index 1; instead
the `Promise.all` rejection abandons the whole batch and both sections keep
their original content — section 0's successful result is dropped. -/
theorem global_rewrite_drops_success_on_sibling_transport_failure :
    rewriteOk (mixedOutcomes 0) = true ∧
    (mixedOutcomes 1).isTransportError = true ∧
    ((handleRewriteAll mixedOutcomes (CallOutcome.transportError "unused")
        twoSectionDoc).now.editedSections.map CourseSection.content = ["a", "b"]) ∧
    rewrittenOf (mixedOutcomes 0) = "A" ∧ ("a" : String) ≠ "A" := by decide

/-- C1 amended: a global rewrite with a nonblank instruction always issues
exactly one scoped rewrite call per section (they are all created before the
join).  If every section call resolves at the transport level, each section
gets the rewritten content exactly when its own response signalled success
(original content otherwise), and one further call is issued for the sales
page when it is nonempty; but if any section call is a transport rejection,
the whole batch is rolled up: no section is updated, the sales page keeps its
text and its call is never issued, and the instruction is retained.  Per-unit
independence therefore holds only for application-level failures, not for
transport-level ones. -/
theorem global_rewrite_fanout (so : Nat → CallOutcome RewriteResponse)
    (sp : CallOutcome RewriteResponse) (s : SageState)
    (h : jsTrim s.globalInstruction ≠ "") :
    (handleRewriteAll so sp s).calls =
      mapWithIdx (fun _ (x : CourseSection) =>
          ApiCall.rewriteCall x.content s.globalInstruction (resolveLang s.lang s.monetizeTopic))
        0 s.editedSections ++
      (if !anySectionTransportError so s.editedSections.length && !(s.editedSalesPage == "")
       then [ApiCall.rewriteCall s.editedSalesPage s.globalInstruction
              (resolveLang s.lang s.monetizeTopic)]
       else []) ∧
    (handleRewriteAll so sp s).calls.length =
      s.editedSections.length +
      (if !anySectionTransportError so s.editedSections.length && !(s.editedSalesPage == "")
       then 1 else 0) ∧
    (anySectionTransportError so s.editedSections.length = false →
      ∀ i, (handleRewriteAll so sp s).now.editedSections.get? i =
        (s.editedSections.get? i).map (fun x =>
          if rewriteOk (so i) then { x with content := rewrittenOf (so i) } else x)) ∧
    (anySectionTransportError so s.editedSections.length = false →
      (handleRewriteAll so sp s).now.editedSalesPage =
        (if s.editedSalesPage = "" then s.editedSalesPage
         else if rewriteOk sp then rewrittenOf sp else s.editedSalesPage)) ∧
    (anySectionTransportError so s.editedSections.length = true →
      (handleRewriteAll so sp s).now.editedSections = s.editedSections ∧
      (handleRewriteAll so sp s).now.editedSalesPage = s.editedSalesPage ∧
      (handleRewriteAll so sp s).now.globalInstruction = s.globalInstruction) := by
  by_cases hte : anySectionTransportError so s.editedSections.length
  · refine ⟨?_, ?_, ?_, ?_, ?_⟩
    · simp [handleRewriteAll, h, hte]
    · simp [handleRewriteAll, h, hte, mapWithIdx_length]
    · intro hfalse; exact absurd hte (by simp [hfalse])
    · intro hfalse; exact absurd hte (by simp [hfalse])
    · intro _; simp [handleRewriteAll, h, hte]
  · have hte' : anySectionTransportError so s.editedSections.length = false := by
      simpa using hte
    by_cases hsp : s.editedSalesPage = ""
    · refine ⟨?_, ?_, ?_, ?_, ?_⟩
      · simp [handleRewriteAll, h, hte', hsp]
      · simp [handleRewriteAll, h, hte', hsp, mapWithIdx_length]
      · intro _ i; simp [handleRewriteAll, h, hte', hsp, mapWithIdx_get]
      · intro _; simp [handleRewriteAll, h, hte', hsp]
      · intro habs; rw [habs] at hte'; exact absurd hte' (by simp)
    · rcases sp with m | body
      · refine ⟨?_, ?_, ?_, ?_, ?_⟩
        · simp [handleRewriteAll, h, hte', hsp]
        · simp [handleRewriteAll, h, hte', hsp, mapWithIdx_length]
        · intro _ i; simp [handleRewriteAll, h, hte', hsp, mapWithIdx_get]
        · intro _; simp [handleRewriteAll, h, hte', hsp, rewriteOk]
        · intro habs; rw [habs] at hte'; exact absurd hte' (by simp)
      · refine ⟨?_, ?_, ?_, ?_, ?_⟩
        · simp [handleRewriteAll, h, hte', hsp]
        · simp [handleRewriteAll, h, hte', hsp, mapWithIdx_length]
        · intro _ i
          by_cases hok : rewriteOk (CallOutcome.resolved body) <;>
            simp [handleRewriteAll, h, hte', hsp, hok, mapWithIdx_get]
        · intro _
          by_cases hok : rewriteOk (CallOutcome.resolved body) <;>
            simp [handleRewriteAll, h, hte', hsp, hok]
        · intro habs; rw [habs] at hte'; exact absurd hte' (by simp)

theorem global_rewrite_fanout_witness :
    (jsTrim twoSectionDoc.globalInstruction ≠ "") ∧
    ((handleRewriteAll mixedOutcomes (CallOutcome.transportError "unused") twoSectionDoc).calls =
      mapWithIdx (fun _ (x : CourseSection) =>
          ApiCall.rewriteCall x.content twoSectionDoc.globalInstruction
            (resolveLang twoSectionDoc.lang twoSectionDoc.monetizeTopic))
        0 twoSectionDoc.editedSections ++
      (if !anySectionTransportError mixedOutcomes twoSectionDoc.editedSections.length
          && !(twoSectionDoc.editedSalesPage == "")
       then [ApiCall.rewriteCall twoSectionDoc.editedSalesPage twoSectionDoc.globalInstruction
              (resolveLang twoSectionDoc.lang twoSectionDoc.monetizeTopic)]
       else []) ∧
    (handleRewriteAll mixedOutcomes (CallOutcome.transportError "unused") twoSectionDoc).calls.length =
      twoSectionDoc.editedSections.length +
      (if !anySectionTransportError mixedOutcomes twoSectionDoc.editedSections.length
          && !(twoSectionDoc.editedSalesPage == "")
       then 1 else 0) ∧
    (anySectionTransportError mixedOutcomes twoSectionDoc.editedSections.length = false →
      ∀ i, (handleRewriteAll mixedOutcomes (CallOutcome.transportError "unused")
          twoSectionDoc).now.editedSections.get? i =
        (twoSectionDoc.editedSections.get? i).map (fun x =>
          if rewriteOk (mixedOutcomes i) then { x with content := rewrittenOf (mixedOutcomes i) }
          else x)) ∧
    (anySectionTransportError mixedOutcomes twoSectionDoc.editedSections.length = false →
      (handleRewriteAll mixedOutcomes (CallOutcome.transportError "unused")
          twoSectionDoc).now.editedSalesPage =
        (if twoSectionDoc.editedSalesPage = "" then twoSectionDoc.editedSalesPage
         else if rewriteOk (CallOutcome.transportError "unused")
              then rewrittenOf (CallOutcome.transportError "unused")
              else twoSectionDoc.editedSalesPage)) ∧
    (anySectionTransportError mixedOutcomes twoSectionDoc.editedSections.length = true →
      (handleRewriteAll mixedOutcomes (CallOutcome.transportError "unused")
          twoSectionDoc).now.editedSections = twoSectionDoc.editedSections ∧
      (handleRewriteAll mixedOutcomes (CallOutcome.transportError "unused")
          twoSectionDoc).now.editedSalesPage = twoSectionDoc.editedSalesPage ∧
      (handleRewriteAll mixedOutcomes (CallOutcome.transportError "unused")
          twoSectionDoc).now.globalInstruction = twoSectionDoc.globalInstruction)) :=
  ⟨by decide, global_rewrite_fanout mixedOutcomes (CallOutcome.transportError "unused")
    twoSectionDoc (by decide)⟩

/-- C3 counterexample: with the gate check still `checking` (an unknown
status, not `found`) and no explicit risk acceptance, requesting generation
runs the pipeline anyway — the running phase is entered and the plan call is
issued.  The guard in `handleMonetize` blocks only the `missing` status, so
an unknown status is not treated as "not confirmed found". -/
theorem generate_proceeds_on_unknown_gate_status :
    checkingState.researchCheck.status = ResearchStatus.checking ∧
    checkingState.researchCheck.status ≠ ResearchStatus.found ∧
    (pipelineStart checkingState).monetizeStatus = MonetizeStatus.running ∧
    (handleMonetize (CallOutcome.transportError "down") (CallOutcome.transportError "down")
        checkingState).calls = [ApiCall.planCall "Morning Routine" "US" "$29"] := by decide

/-- C3 amended: for a nonempty topic, requesting generation enters
`needs_research` (with no remote call) exactly when the gate status is
`missing`; every other status — `found`, but also the unknown `idle` and
`checking` — falls through to the pipeline without any risk-acceptance
input.  (Scenario A itself holds: `missing` yields `needs_research`.) -/
theorem monetize_blocks_only_on_missing (p : CallOutcome PlanResponse)
    (e : CallOutcome ExecResponse) (s : SageState) (h : s.monetizeTopic ≠ "") :
    (s.researchCheck.status = ResearchStatus.missing →
      handleMonetize p e s =
        { now := { s with monetizeStatus := MonetizeStatus.needs_research }
          later := none, calls := [] }) ∧
    (s.researchCheck.status ≠ ResearchStatus.missing →
      handleMonetize p e s = runMonetizePipeline p e s) := by
  constructor
  · intro hm; simp [handleMonetize, h, hm]
  · intro hm; simp [handleMonetize, h, hm]

theorem monetize_blocks_only_on_missing_witness :
    (missingState.monetizeTopic ≠ "") ∧
    ((missingState.researchCheck.status = ResearchStatus.missing →
      handleMonetize (CallOutcome.resolved none) (CallOutcome.resolved none) missingState =
        { now := { missingState with monetizeStatus := MonetizeStatus.needs_research }
          later := none, calls := [] }) ∧
    (missingState.researchCheck.status ≠ ResearchStatus.missing →
      handleMonetize (CallOutcome.resolved none) (CallOutcome.resolved none) missingState =
        runMonetizePipeline (CallOutcome.resolved none) (CallOutcome.resolved none) missingState)) :=
  ⟨by decide, monetize_blocks_only_on_missing (CallOutcome.resolved none)
    (CallOutcome.resolved none) missingState (by decide)⟩

/-- C5: a scoped rewrite whose call does not succeed (transport rejection or a
response without `status: 'success'`) leaves every section — so in particular
the target and its siblings — and the sales page exactly as they were,
retains the target's pending instruction text, keeps the state in `review`,
and schedules no revert. -/
theorem scoped_rewrite_failure_leaves_document (idx : Nat) (o : CallOutcome RewriteResponse)
    (s : SageState) (hrev : s.monetizeStatus = MonetizeStatus.review)
    (hfail : rewriteOk o = false) :
    (handleRewriteSection idx o s).now.editedSections = s.editedSections ∧
    (handleRewriteSection idx o s).now.editedSalesPage = s.editedSalesPage ∧
    (handleRewriteSection idx o s).now.sectionInstructions (UnitKey.sec idx) =
      s.sectionInstructions (UnitKey.sec idx) ∧
    (handleRewriteSection idx o s).now.monetizeStatus = MonetizeStatus.review ∧
    (handleRewriteSection idx o s).later = none := by
  by_cases hg : jsTrim (s.sectionInstructions (UnitKey.sec idx)) = "" <;>
    simp [handleRewriteSection, noopRun, hg, hfail, hrev]

theorem scoped_rewrite_failure_leaves_document_witness :
    (threeSectionDoc.monetizeStatus = MonetizeStatus.review) ∧
    (rewriteOk (CallOutcome.transportError "timeout") = false) ∧
    ((handleRewriteSection 1 (CallOutcome.transportError "timeout")
        threeSectionDoc).now.editedSections = threeSectionDoc.editedSections ∧
    (handleRewriteSection 1 (CallOutcome.transportError "timeout")
        threeSectionDoc).now.editedSalesPage = threeSectionDoc.editedSalesPage ∧
    (handleRewriteSection 1 (CallOutcome.transportError "timeout")
        threeSectionDoc).now.sectionInstructions (UnitKey.sec 1) =
      threeSectionDoc.sectionInstructions (UnitKey.sec 1) ∧
    (handleRewriteSection 1 (CallOutcome.transportError "timeout")
        threeSectionDoc).now.monetizeStatus = MonetizeStatus.review ∧
    (handleRewriteSection 1 (CallOutcome.transportError "timeout")
        threeSectionDoc).later = none) :=
  ⟨by decide, by decide, scoped_rewrite_failure_leaves_document 1
    (CallOutcome.transportError "timeout") threeSectionDoc (by decide) (by decide)⟩

/-- C6: when the persistence call fails (transport rejection or a response
without `status: 'success'`, including one with an error payload), the state
shows `error` with a message and the scheduled revert returns it to `review`
with the message cleared; the edited sections and sales page are identical in
the immediate state and in the state after the window — no failure path
mutates the edited document. -/
theorem finalize_failure_reverts_to_review (o : CallOutcome FinalizeResponse)
    (s : SageState) (h : finalizeOk o = false) :
    (handleFinalize o s).later =
      some { (handleFinalize o s).now with
             monetizeStatus := MonetizeStatus.review, monetizeResult := none } ∧
    (handleFinalize o s).now.monetizeStatus = MonetizeStatus.error ∧
    (handleFinalize o s).now.monetizeResult = some (finalizeErrMsg o) ∧
    (handleFinalize o s).now.editedSections = s.editedSections ∧
    (handleFinalize o s).now.editedSalesPage = s.editedSalesPage := by
  simp [handleFinalize, h]

theorem finalize_failure_reverts_to_review_witness :
    (finalizeOk (CallOutcome.transportError "disk full") = false) ∧
    ((handleFinalize (CallOutcome.transportError "disk full") threeSectionDoc).later =
      some { (handleFinalize (CallOutcome.transportError "disk full") threeSectionDoc).now with
             monetizeStatus := MonetizeStatus.review, monetizeResult := none } ∧
    (handleFinalize (CallOutcome.transportError "disk full") threeSectionDoc).now.monetizeStatus =
      MonetizeStatus.error ∧
    (handleFinalize (CallOutcome.transportError "disk full") threeSectionDoc).now.monetizeResult =
      some (finalizeErrMsg (CallOutcome.transportError "disk full")) ∧
    (handleFinalize (CallOutcome.transportError "disk full") threeSectionDoc).now.editedSections =
      threeSectionDoc.editedSections ∧
    (handleFinalize (CallOutcome.transportError "disk full") threeSectionDoc).now.editedSalesPage =
      threeSectionDoc.editedSalesPage) :=
  ⟨by decide, finalize_failure_reverts_to_review (CallOutcome.transportError "disk full")
    threeSectionDoc (by decide)⟩

/-- C7 counterexample: in the `needs_research` state, the research call is
rejected at the transport level.  The claim requires the workflow to proceed
to `running` regardless; instead the `catch` sets the state to `error`, no
re-check is issued, and the pipeline (plan call) is never started. -/
theorem research_transport_failure_does_not_proceed :
    (handleD1ForTopic (CallOutcome.transportError "boom") (CallOutcome.resolved none)
        (CallOutcome.resolved none) (CallOutcome.resolved none)
        needsResearchState).now.monetizeStatus = MonetizeStatus.error ∧
    (handleD1ForTopic (CallOutcome.transportError "boom") (CallOutcome.resolved none)
        (CallOutcome.resolved none) (CallOutcome.resolved none)
        needsResearchState).calls = [ApiCall.d1GenerateCall "Morning Routine"] := by decide

/-- C7 amended: the research step is best-effort only at the application
level — when the research call and the gate re-query both resolve, their
bodies are never inspected for success and the workflow re-queries the gate
and then runs the generation pipeline regardless; but a transport rejection
of the research call is fatal to the flow: the state becomes `error` and the
pipeline is never started. -/
theorem research_step_best_effort_at_application_level (b1 : Option Unit)
    (b2 : Option CheckResponse) (m : String) (p : CallOutcome PlanResponse)
    (e : CallOutcome ExecResponse) (s : SageState) :
    (handleD1ForTopic (CallOutcome.resolved b1) (CallOutcome.resolved b2) p e s).now =
      (runMonetizePipeline p e
        { s with monetizeStatus := MonetizeStatus.running_d1, researchCheck := checkOf b2 }).now ∧
    (handleD1ForTopic (CallOutcome.resolved b1) (CallOutcome.resolved b2) p e s).calls =
      ApiCall.d1GenerateCall s.monetizeTopic :: ApiCall.researchCheckCall s.monetizeTopic ::
        (runMonetizePipeline p e
          { s with monetizeStatus := MonetizeStatus.running_d1, researchCheck := checkOf b2 }).calls ∧
    (handleD1ForTopic (CallOutcome.transportError m) (CallOutcome.resolved b2) p e s).now.monetizeStatus =
      MonetizeStatus.error ∧
    (handleD1ForTopic (CallOutcome.transportError m) (CallOutcome.resolved b2) p e s).calls =
      [ApiCall.d1GenerateCall s.monetizeTopic] := by
  refine ⟨?_, ?_, ?_, ?_⟩ <;> simp [handleD1ForTopic, d1FailRun]

/-- C8: the workflow status is a single value, so at most one of
{`running`, `running_d1`, `finalizing`} holds at any time; while the first
generation is in flight the status is `running`, in which the generate
button's disabled guard makes a second click a no-op (no state change, no
call); the first click issues exactly one plan call followed by at most one
execute call — one pair, not two. -/
theorem generate_busy_guard_idempotent (p p2 : CallOutcome PlanResponse)
    (e e2 : CallOutcome ExecResponse) (s : SageState)
    (hidle : s.monetizeStatus = MonetizeStatus.idle)
    (ht : s.monetizeTopic ≠ "")
    (hnm : s.researchCheck.status ≠ ResearchStatus.missing) :
    (∀ u : SageState, busyCount u ≤ 1) ∧
    (pipelineStart s).monetizeStatus = MonetizeStatus.running ∧
    clickGenerate p2 e2 (pipelineStart s) = noopRun (pipelineStart s) ∧
    (clickGenerate p e s).calls =
      ApiCall.planCall s.monetizeTopic s.market s.price ::
        (if planOk p then [ApiCall.executeCall s.monetizeTopic (planPayload p) s.lang] else []) := by
  refine ⟨?_, rfl, ?_, ?_⟩
  · intro u; cases h : u.monetizeStatus <;> simp [busyCount, h]
  · simp [clickGenerate, generateButtonDisabled, pipelineStart]
  · rw [clickGenerate]
    have hr : generateButtonRendered s = true := by
      simp [generateButtonRendered, hidle]
    have hd : generateButtonDisabled s = false := by
      simp [generateButtonDisabled, hidle, ht]
    rw [hr, hd]
    simp only [Bool.not_false, Bool.and_self, if_true]
    rw [handleMonetize, if_neg ht, if_neg hnm]
    exact pipeline_calls p e s

theorem generate_busy_guard_idempotent_witness :
    (checkingState.monetizeStatus = MonetizeStatus.idle) ∧
    (checkingState.monetizeTopic ≠ "") ∧
    (checkingState.researchCheck.status ≠ ResearchStatus.missing) ∧
    ((∀ u : SageState, busyCount u ≤ 1) ∧
    (pipelineStart checkingState).monetizeStatus = MonetizeStatus.running ∧
    clickGenerate (CallOutcome.resolved none) (CallOutcome.resolved none)
      (pipelineStart checkingState) = noopRun (pipelineStart checkingState) ∧
    (clickGenerate (CallOutcome.resolved none) (CallOutcome.resolved none) checkingState).calls =
      ApiCall.planCall checkingState.monetizeTopic checkingState.market checkingState.price ::
        (if planOk (CallOutcome.resolved none)
         then [ApiCall.executeCall checkingState.monetizeTopic
                (planPayload (CallOutcome.resolved none)) checkingState.lang]
         else [])) :=
  ⟨by decide, by decide, by decide,
   generate_busy_guard_idempotent (CallOutcome.resolved none) (CallOutcome.resolved none)
     (CallOutcome.resolved none) (CallOutcome.resolved none) checkingState
     (by decide) (by decide) (by decide)⟩

/-- C10: a scoped rewrite of a section or of the sales page whose pending
instruction is blank, and a global rewrite whose global instruction is blank,
each return before issuing any call and leave the whole state untouched. -/
theorem blank_instruction_rewrites_are_noops (idx : Nat)
    (o o2 sp : CallOutcome RewriteResponse) (so : Nat → CallOutcome RewriteResponse)
    (s : SageState) :
    (jsTrim (s.sectionInstructions (UnitKey.sec idx)) = "" →
      handleRewriteSection idx o s = noopRun s) ∧
    (jsTrim (s.sectionInstructions UnitKey.sales) = "" →
      handleRewriteSales o2 s = noopRun s) ∧
    (jsTrim s.globalInstruction = "" → handleRewriteAll so sp s = noopRun s) := by
  refine ⟨fun h => ?_, fun h => ?_, fun h => ?_⟩
  · simp [handleRewriteSection, h]
  · simp [handleRewriteSales, h]
  · simp [handleRewriteAll, h]

theorem blank_instruction_rewrites_are_noops_witness :
    (jsTrim (threeSectionDoc.sectionInstructions (UnitKey.sec 0)) = "") ∧
    (jsTrim (threeSectionDoc.sectionInstructions UnitKey.sales) = "") ∧
    (jsTrim threeSectionDoc.globalInstruction = "") ∧
    handleRewriteSection 0 (CallOutcome.transportError "x") threeSectionDoc =
      noopRun threeSectionDoc ∧
    handleRewriteSales (CallOutcome.transportError "x") threeSectionDoc =
      noopRun threeSectionDoc ∧
    handleRewriteAll (fun _ => CallOutcome.transportError "x")
      (CallOutcome.transportError "x") threeSectionDoc = noopRun threeSectionDoc :=
  ⟨by decide, by decide, by decide,
   (blank_instruction_rewrites_are_noops 0 (CallOutcome.transportError "x")
     (CallOutcome.transportError "x") (CallOutcome.transportError "x")
     (fun _ => CallOutcome.transportError "x") threeSectionDoc).1 (by decide),
   (blank_instruction_rewrites_are_noops 0 (CallOutcome.transportError "x")
     (CallOutcome.transportError "x") (CallOutcome.transportError "x")
     (fun _ => CallOutcome.transportError "x") threeSectionDoc).2.1 (by decide),
   (blank_instruction_rewrites_are_noops 0 (CallOutcome.transportError "x")
     (CallOutcome.transportError "x") (CallOutcome.transportError "x")
     (fun _ => CallOutcome.transportError "x") threeSectionDoc).2.2 (by decide)⟩

end SageOS
